import Mathlib

/-!
Verification of the MIDC chatbot backend (`src/main.py`).

The file shallowly embeds the pure decision logic of the Flask `/chat`
handler: language detection, internet-mode arbitration, repository
partitioning, context building, form matching, page recommendation, and
the assembly of the JSON response.  I/O collaborators (the GCS bucket
fetch and the two generative-model calls) are modelled as explicit
inputs: the repository is a list of already-parsed records, and the
model call is an `Except Unit (Option String)` whose `error` case stands
for a raised exception and whose `ok` payload is `response.text`
(`none` when the response object or its text is missing).
-/

set_option autoImplicit false

namespace MIDC

/-- Model of Python's string truthiness filter: `s if s else None`
applied to an optional string.  The empty string is falsy. -/
def pyStr : Option String → Option String
  | some s => if s = "" then none else some s
  | none => none

/-- Truthiness of an optional string, as Python evaluates it in a
condition: `None` and `""` are falsy. -/
def pyTruthy : Option String → Bool
  | some s => s != ""
  | none => false

/-- Model of Python's `a or d` for an optional string `a` and a string
default `d`. -/
def pyOrStr (a : Option String) (d : String) : String :=
  match a with
  | some s => if s = "" then d else s
  | none => d

/-- Python's `str.lower()`.  (ASCII case mapping; every string constant
compared in `main.py` is ASCII.) -/
def pyLower (s : String) : String :=
  String.mk (s.data.map Char.toLower)

/-- Python's `str.strip()` with no argument: drop leading and trailing
whitespace. -/
def pyStrip (s : String) : String :=
  String.mk (((s.data.dropWhile Char.isWhitespace).reverse.dropWhile
    Char.isWhitespace).reverse)

/-- Accumulator-based whitespace splitter over characters (`acc` holds
the current word reversed). -/
def wordsAux : List Char → List Char → List String
  | acc, [] => if acc = [] then [] else [String.mk acc.reverse]
  | acc, c :: cs =>
    if c.isWhitespace then
      if acc = [] then wordsAux [] cs
      else String.mk acc.reverse :: wordsAux [] cs
    else wordsAux (c :: acc) cs

/-- Python's `str.split()` with no argument: split on whitespace runs,
dropping empty fields. -/
def pySplitWS (s : String) : List String :=
  wordsAux [] s.data

/-- Does `needle` start `hay`?  (Helper for the substring test.) -/
def listStarts : List Char → List Char → Bool
  | [], _ => true
  | _ :: _, [] => false
  | a :: as, b :: bs => a == b && listStarts as bs

/-- Contiguous-occurrence test on character lists, the semantics of
Python's `needle in hay` on strings. -/
def listIn (needle : List Char) : List Char → Bool
  | [] => listStarts needle []
  | c :: cs => listStarts needle (c :: cs) || listIn needle cs

/-- Python's `needle in hay` on strings. -/
def pyIn (needle hay : String) : Bool :=
  listIn needle.toList hay.toList

/-- `INTERNET_TRIGGER_KEYWORDS` from `main.py`. -/
def INTERNET_TRIGGER_KEYWORDS : List String :=
  ["search internet", "search web", "outside midc", "general knowledge",
   "latest", "news", "google"]

/-- `CONFIDENCE_HIGH` from `main.py`. -/
def CONFIDENCE_HIGH : ℚ := 85 / 100

/-- The fixed fallback answer text from the `/chat` handler
(`answer or "The requested information is not available on MIDC's official website."`). -/
def SENTINEL : String :=
  "The requested information is not available on MIDC's official website."

/-- One parsed repository record (a JSON blob from the bucket).  Field
defaults mirror the `.get` defaults used in `main.py`: `metadata.type`
defaults to `"page"`, `metadata.keywords` to `[]`, `chunks` to `[]`;
`title`, `source_url` and `url` are looked up without a default and so
are optional. -/
structure Rec where
  mtype : String := "page"
  keywords : List String := []
  title : Option String := none
  source_url : Option String := none
  url : Option String := none
  chunks : List String := []
deriving DecidableEq, Repr

/-- A `{"title": ..., "url": ...}` dictionary in the response's
`external_links` field. -/
structure Link where
  title : Option String
  url : Option String
deriving DecidableEq, Repr

/-- A `{"title": ..., "url": ...}` dictionary in the response's
`recommended_pages` field (title is a string, defaulted to `""`). -/
structure PageRec where
  title : String
  url : Option String
deriving DecidableEq, Repr

/-- `detect_language` from `main.py`: `"mr"` when some character lies in
the Devanagari block U+0900..U+097F, else `"en"`. -/
def detect_language (text : String) : String :=
  if text.toList.any (fun ch => 0x0900 ≤ ch.toNat && ch.toNat ≤ 0x097F)
  then "mr" else "en"

/-- `is_internet_query` from `main.py`: explicit `mode == "internet"`
wins; otherwise any trigger keyword occurring in the lowered question
selects internet mode. -/
def is_internet_query (question : String) (mode : Option String) : Bool :=
  if mode = some "internet" then true
  else INTERNET_TRIGGER_KEYWORDS.any (fun k => pyIn k (pyLower question))

/-- The pure partitioning step of `load_all_content`: records are routed
on `metadata.type` into pages / pdfs / forms / external links (the loop
appends in iteration order, so each bucket is a filter of the input). -/
def partition_content (recs : List Rec) :
    List Rec × List Rec × List Rec × List Rec :=
  (recs.filter (fun r => r.mtype != "pdf" && r.mtype != "form" && r.mtype != "external"),
   recs.filter (fun r => r.mtype == "pdf"),
   recs.filter (fun r => r.mtype == "form"),
   recs.filter (fun r => r.mtype == "external"))

/-- The documents `build_context` draws chunks from: the first six pages
and the first four pdfs (`pages[:6]`, `pdfs[:4]`). -/
def selected_docs (pages pdfs : List Rec) : List Rec :=
  pages.take 6 ++ pdfs.take 4

/-- The chunk list assembled by `build_context`: up to three chunks from
each of the first six pages, then up to two chunks from each of the
first four pdfs. -/
def contextChunks (pages pdfs : List Rec) : List String :=
  (pages.take 6).flatMap (fun p => p.chunks.take 3) ++
  (pdfs.take 4).flatMap (fun p => p.chunks.take 2)

/-- `build_context` from `main.py`. -/
def build_context (pages pdfs : List Rec) : String :=
  String.intercalate "\n\n" (contextChunks pages pdfs)

/-- `detect_relevant_forms` from `main.py`: keep the forms one of whose
metadata keywords, lowered, occurs in the lowered question. -/
def detect_relevant_forms (question : String) (forms : List Rec) : List Rec :=
  forms.filter (fun f =>
    f.keywords.any (fun k => pyIn (pyLower k) (pyLower question)))

/-- `recommend_pages` from `main.py`: pages with a non-empty title one of
whose title words occurs in the lowered question, projected to
title/source_url pairs, first five. -/
def recommend_pages (question : String) (pages : List Rec) : List PageRec :=
  let q := pyLower question
  ((pages.filter (fun p =>
      let title := p.title.getD ""
      title ≠ "" && (pySplitWS (pyLower title)).any (fun w => pyIn w q))).map
    (fun p => { title := p.title.getD "", url := p.source_url })).take 5

/-- `internet_answer` from `main.py`, with the model call abstracted to
its returned text: `response.text if response and response.text else None`. -/
def internet_answer (modelText : Option String) : Option String :=
  pyStr modelText

/-- The `answer` local of the MIDC branch of `chat`:
`response.text.strip() if response and response.text else None`. -/
def midc_answer (modelText : Option String) : Option String :=
  (pyStr modelText).map (fun s => pyStrip s)

/-- Python's `round(x, 2)` on the exact confidence values used here. -/
def round2 (q : ℚ) : ℚ := round (q * 100) / 100

/-- The `conversation_state` object of the response.  The internet
branch emits only `intent` and `should_follow_up`; the absent keys are
modelled as `none`. -/
structure ConversationState where
  intent : String
  should_follow_up : Bool
  follow_up_message : Option String := none
  last_interaction_ts : Option Nat := none
deriving DecidableEq, Repr

/-- The JSON body returned by the `/chat` handler on success. -/
structure ChatResponse where
  answer : Option String
  confidence_score : ℚ
  sources : List String
  external_links : List Link
  forms_detected : List Rec
  recommended_pages : List PageRec
  conversation_state : ConversationState
deriving DecidableEq, Repr

/-- The observable outcome of a `/chat` request: the 400 rejection for a
blank question, an uncaught exception escaping the handler, or a 200
response with a JSON body. -/
inductive ChatResult where
  | badRequest : ChatResult
  | fault : ChatResult
  | ok : ChatResponse → ChatResult
deriving DecidableEq, Repr

/-- The response literal of the internet branch of `chat`. -/
def internet_response (t : Option String) : ChatResponse where
  answer := internet_answer t
  confidence_score := 65 / 100
  sources := ["Google Search"]
  external_links := []
  forms_detected := []
  recommended_pages := []
  conversation_state := { intent := "internet", should_follow_up := false }

/-- The response literal of the MIDC branch of `chat`, given the
stripped question, the parsed repository records, the model text and the
current time.  The Python `sources` set comprehension (keeping only
truthy `source_url` values) is modelled as a deduplicated list. -/
def midc_response (question : String) (recs : List Rec) (t : Option String)
    (now : Nat) : ChatResponse :=
  let parts := partition_content recs
  let pages := parts.1
  let forms := parts.2.2.1
  let ext := parts.2.2.2
  let matched_forms := detect_relevant_forms question forms
  let answer := midc_answer t
  let confidence : ℚ := if pyTruthy answer then CONFIDENCE_HIGH else 0
  let fu_sfu : Option String × Bool :=
    if matched_forms ≠ [] then
      (some "I found a form related to this. Would you like me to help you fill it step by step?", true)
    else if pyTruthy answer then (none, false)
    else (some "I could not find this on MIDC. Should I search the internet for you?", true)
  { answer := some (pyOrStr answer SENTINEL)
    confidence_score := round2 confidence
    sources := (pages.filterMap (fun p => pyStr p.source_url)).dedup
    external_links := (ext.take 5).map (fun l => { title := l.title, url := l.url })
    forms_detected := matched_forms
    recommended_pages := recommend_pages question pages
    conversation_state :=
      { intent := "midc"
        should_follow_up := fu_sfu.2
        follow_up_message := fu_sfu.1
        last_interaction_ts := some now } }

/-- The `/chat` handler: strip the question, reject a blank one, decide
the mode, and run the corresponding branch.  A raised model call
(`Except.error`) is not caught anywhere in `main.py` and escapes as a
fault. -/
def chat (bodyQuestion : String) (mode : Option String) (recs : List Rec)
    (modelResult : Except Unit (Option String)) (now : Nat) : ChatResult :=
  if pyStrip bodyQuestion = "" then ChatResult.badRequest
  else if is_internet_query (pyStrip bodyQuestion) mode then
    match modelResult with
    | Except.error _ => ChatResult.fault
    | Except.ok t => ChatResult.ok (internet_response t)
  else
    match modelResult with
    | Except.error _ => ChatResult.fault
    | Except.ok t => ChatResult.ok (midc_response (pyStrip bodyQuestion) recs t now)


/-! ## Helper lemmas -/

/-- `round(·, 2)` is the identity on the high-confidence constant. -/
theorem round2_high : round2 CONFIDENCE_HIGH = 85 / 100 := by
  simp [round2, CONFIDENCE_HIGH]

/-- `round(·, 2)` is the identity on zero. -/
theorem round2_zero : round2 0 = 0 := by
  simp [round2]

/-- Python's `a or d` returns the default when `a` is falsy. -/
theorem pyOrStr_of_falsy (a : Option String) (d : String)
    (h : pyTruthy a = false) : pyOrStr a d = d := by
  cases a with
  | none => rfl
  | some s =>
    simp only [pyTruthy, bne_eq_false_iff_eq] at h
    simp [pyOrStr, h]

/-- A blank question is rejected before the pipeline runs. -/
theorem chat_blank_eq (q : String) (mode : Option String) (recs : List Rec)
    (mr : Except Unit (Option String)) (now : Nat) (hq : pyStrip q = "") :
    chat q mode recs mr now = ChatResult.badRequest := by
  unfold chat
  rw [if_pos hq]

/-- A raised model call escapes the handler. -/
theorem chat_error_eq (q : String) (mode : Option String) (recs : List Rec)
    (e : Unit) (now : Nat) (hq : pyStrip q ≠ "") :
    chat q mode recs (Except.error e) now = ChatResult.fault := by
  unfold chat
  rw [if_neg hq]
  by_cases hm : is_internet_query (pyStrip q) mode = true <;> simp [hm]

/-- The internet branch of `chat`. -/
theorem chat_internet_eq (q : String) (mode : Option String) (recs : List Rec)
    (t : Option String) (now : Nat) (hq : pyStrip q ≠ "")
    (hm : is_internet_query (pyStrip q) mode = true) :
    chat q mode recs (Except.ok t) now = ChatResult.ok (internet_response t) := by
  unfold chat
  rw [if_neg hq, if_pos hm]

/-- The MIDC branch of `chat`. -/
theorem chat_midc_eq (q : String) (mode : Option String) (recs : List Rec)
    (t : Option String) (now : Nat) (hq : pyStrip q ≠ "")
    (hm : is_internet_query (pyStrip q) mode = false) :
    chat q mode recs (Except.ok t) now =
      ChatResult.ok (midc_response (pyStrip q) recs t now) := by
  unfold chat
  rw [if_neg hq, if_neg (by simp [hm])]

/-- Inversion: a successful `chat` outcome came from an un-raised model
call, through exactly one of the two branches. -/
theorem chat_ok_cases (q : String) (mode : Option String) (recs : List Rec)
    (mr : Except Unit (Option String)) (now : Nat) (r : ChatResponse)
    (h : chat q mode recs mr now = ChatResult.ok r) :
    pyStrip q ≠ "" ∧ ∃ t, mr = Except.ok t ∧
      ((is_internet_query (pyStrip q) mode = true ∧ r = internet_response t) ∨
       (is_internet_query (pyStrip q) mode = false ∧
         r = midc_response (pyStrip q) recs t now)) := by
  by_cases hq : pyStrip q = ""
  · rw [chat_blank_eq q mode recs mr now hq] at h
    exact absurd h (by simp)
  · refine ⟨hq, ?_⟩
    cases mr with
    | error e =>
      rw [chat_error_eq q mode recs e now hq] at h
      exact absurd h (by simp)
    | ok t =>
      refine ⟨t, rfl, ?_⟩
      by_cases hm : is_internet_query (pyStrip q) mode = true
      · rw [chat_internet_eq q mode recs t now hq hm] at h
        exact Or.inl ⟨hm, (ChatResult.ok.inj h).symm⟩
      · rw [chat_midc_eq q mode recs t now hq (Bool.not_eq_true _ ▸ hm)] at h
        exact Or.inr ⟨Bool.not_eq_true _ ▸ hm, (ChatResult.ok.inj h).symm⟩

/-- The confidence field of the MIDC branch. -/
theorem midc_response_conf (q : String) (recs : List Rec) (t : Option String)
    (now : Nat) :
    (midc_response q recs t now).confidence_score =
      round2 (if pyTruthy (midc_answer t) then CONFIDENCE_HIGH else 0) := rfl

/-- The answer field of the MIDC branch. -/
theorem midc_response_answer (q : String) (recs : List Rec) (t : Option String)
    (now : Nat) :
    (midc_response q recs t now).answer =
      some (pyOrStr (midc_answer t) SENTINEL) := rfl

/-- The sources field of the MIDC branch. -/
theorem midc_response_sources (q : String) (recs : List Rec) (t : Option String)
    (now : Nat) :
    (midc_response q recs t now).sources =
      ((partition_content recs).1.filterMap (fun p => pyStr p.source_url)).dedup := rfl


/-! ## Claim C1 — entity-safety override in the Mode Arbiter -/

/-- Claim C1 as stated is false: `main.py` has no entity-safety keyword
set.  A query about organization officials and their contact details is
routed to internet mode both when the caller sets `mode = "internet"`
and when the text carries a web-search trigger word ("latest"), where
the claim demands internal mode. -/
theorem C1_entity_safety_counterexample :
    is_internet_query "contact number of midc officials" (some "internet") = true ∧
    is_internet_query "latest contact address of midc officials" none = true := by
  decide

/-- Claim C1 amended: the Mode Arbiter has no entity-safety override;
an explicit `mode = "internet"` always selects internet mode, whatever
the query text. -/
theorem C1_explicit_mode_always_internet (q : String) :
    is_internet_query q (some "internet") = true := by
  simp [is_internet_query]

/-! ## Claim C2 — failure policy of the model call -/

/-- Claim C2 as stated is false: a raised model call is not caught
anywhere in `main.py`, so the request faults instead of returning a
successful response carrying the "not available" sentinel. -/
theorem C2_raise_counterexample :
    chat "hello" none [] (Except.error ()) 0 = ChatResult.fault := by
  decide

/-- Claim C2 amended: a raised model call propagates as a fault; an
empty model text in internal mode yields a success whose answer is the
fixed English sentinel (not language-matched) with confidence `0.0`,
and in internet mode a success whose answer is null. -/
theorem C2_failure_policy_amended (q : String) (mode : Option String)
    (recs : List Rec) (now : Nat) (hq : pyStrip q ≠ "") :
    chat q mode recs (Except.error ()) now = ChatResult.fault ∧
    (is_internet_query (pyStrip q) mode = false →
      chat q mode recs (Except.ok none) now =
        ChatResult.ok (midc_response (pyStrip q) recs none now) ∧
      (midc_response (pyStrip q) recs none now).answer = some SENTINEL ∧
      (midc_response (pyStrip q) recs none now).confidence_score = 0) ∧
    (is_internet_query (pyStrip q) mode = true →
      chat q mode recs (Except.ok none) now = ChatResult.ok (internet_response none) ∧
      (internet_response none).answer = none) := by
  refine ⟨chat_error_eq q mode recs () now hq, fun hm => ⟨?_, ?_, ?_⟩, fun hm => ⟨?_, rfl⟩⟩
  · exact chat_midc_eq q mode recs none now hq hm
  · rw [midc_response_answer]
    rfl
  · rw [midc_response_conf]
    simpa [midc_answer, pyStr, pyTruthy] using round2_zero
  · exact chat_internet_eq q mode recs none now hq hm

/-- Witness for the amended C2 theorem at a concrete input. -/
theorem C2_failure_policy_amended_witness :
    pyStrip "hello" ≠ "" ∧
    chat "hello" none [] (Except.error ()) 7 = ChatResult.fault ∧
    chat "hello" none [] (Except.ok none) 7 =
      ChatResult.ok (midc_response (pyStrip "hello") [] none 7) ∧
    (midc_response (pyStrip "hello") [] none 7).answer = some SENTINEL := by
  have h := C2_failure_policy_amended "hello" none [] 7 (by decide)
  exact ⟨by decide, h.1, (h.2.1 (by decide)).1, (h.2.1 (by decide)).2.1⟩

/-! ## Claim C3 — non-empty document selection -/

/-- Claim C3 as stated is false: there is no default-document fallback.
A non-empty repository consisting of a single form record partitions
into empty page and pdf lists, so `build_context` draws from an empty
document selection and produces an empty context. -/
theorem C3_forms_only_counterexample :
    ([({ mtype := "form", chunks := ["c"] } : Rec)] ≠ ([] : List Rec)) ∧
    selected_docs (partition_content [({ mtype := "form", chunks := ["c"] } : Rec)]).1
      (partition_content [({ mtype := "form", chunks := ["c"] } : Rec)]).2.1 = [] ∧
    build_context (partition_content [({ mtype := "form", chunks := ["c"] } : Rec)]).1
      (partition_content [({ mtype := "form", chunks := ["c"] } : Rec)]).2.1 = "" := by
  decide

/-- Claim C3 amended: the selection `build_context` draws from is
non-empty whenever the repository contributes at least one page or pdf
record; there is no designated default document, and a repository
holding only form or external records yields an empty selection. -/
theorem C3_selection_nonempty (pages pdfs : List Rec)
    (h : pages ++ pdfs ≠ []) : selected_docs pages pdfs ≠ [] := by
  cases pages with
  | nil =>
    cases pdfs with
    | nil => simp at h
    | cons d ds => simp [selected_docs]
  | cons p ps => simp [selected_docs]

/-- Witness for the amended C3 theorem at a concrete input. -/
theorem C3_selection_nonempty_witness :
    (([({} : Rec)] ++ ([] : List Rec)) ≠ []) ∧
    selected_docs [({} : Rec)] [] ≠ [] :=
  ⟨by decide, C3_selection_nonempty [{}] [] (by decide)⟩


/-! ## Claim C4 — confidence bounds and the sentinel -/

/-- Claim C4 as stated is false on the "equals (or contains)" half: when
the model itself returns text equal to the sentinel, the returned answer
equals the sentinel while the confidence is the high tier `0.85`, not
the low constant `0.0`. -/
theorem C4_sentinel_echo_counterexample :
    chat "hello" none [] (Except.ok (some SENTINEL)) 0 = ChatResult.ok
      { answer := some SENTINEL
        confidence_score := 85 / 100
        sources := []
        external_links := []
        forms_detected := []
        recommended_pages := []
        conversation_state :=
          { intent := "midc", should_follow_up := false
            follow_up_message := none, last_interaction_ts := some 0 } } ∧
    ((85 : ℚ) / 100 ≠ 0) := by
  constructor
  · simp +decide [chat, midc_response, round2_high]
  · norm_num

/-- Claim C4 amended: every successful response has confidence in
`[0,1]`, and the confidence is exactly `0.0` precisely on the internal
path on which the sentinel was substituted for a missing or blank model
answer (a sentinel echoed by the model itself scores `0.85`). -/
theorem C4_confidence_amended (q : String) (mode : Option String)
    (recs : List Rec) (mr : Except Unit (Option String)) (now : Nat)
    (r : ChatResponse) (h : chat q mode recs mr now = ChatResult.ok r) :
    0 ≤ r.confidence_score ∧ r.confidence_score ≤ 1 ∧
    (∀ t, mr = Except.ok t → is_internet_query (pyStrip q) mode = false →
      pyTruthy (midc_answer t) = false →
      r.answer = some SENTINEL ∧ r.confidence_score = 0) := by
  obtain ⟨hq, t, hmr, hcase⟩ := chat_ok_cases q mode recs mr now r h
  subst hmr
  rcases hcase with ⟨hm, rfl⟩ | ⟨hm, rfl⟩
  · refine ⟨?_, ?_, fun t' ht' hm2 _ => absurd hm (by simp [hm2])⟩
    · show (0 : ℚ) ≤ 65 / 100
      norm_num
    · show (65 : ℚ) / 100 ≤ 1
      norm_num
  · by_cases ha : pyTruthy (midc_answer t) = true
    · rw [midc_response_conf (pyStrip q) recs t now, if_pos ha, round2_high]
      refine ⟨by norm_num, by norm_num, fun t' ht' _ ha2 => ?_⟩
      rw [← Except.ok.inj ht'] at ha2
      exact absurd ha (by simp [ha2])
    · rw [midc_response_conf (pyStrip q) recs t now, if_neg ha, round2_zero]
      refine ⟨le_refl 0, by norm_num, fun t' ht' _ _ => ?_⟩
      rw [midc_response_answer (pyStrip q) recs t now, pyOrStr_of_falsy _ _ (Bool.not_eq_true _ ▸ ha)]
      exact ⟨rfl, rfl⟩

/-- Witness for the amended C4 theorem at a concrete input. -/
theorem C4_confidence_amended_witness :
    0 ≤ (midc_response (pyStrip "hello") [] none 0).confidence_score ∧
    (midc_response (pyStrip "hello") [] none 0).confidence_score ≤ 1 ∧
    (midc_response (pyStrip "hello") [] none 0).answer = some SENTINEL := by
  have hc := chat_midc_eq "hello" none [] none 0 (by decide) (by decide)
  have h := C4_confidence_amended "hello" none [] (Except.ok none) 0 _ hc
  exact ⟨h.1, h.2.1, (h.2.2 none rfl (by decide) (by decide)).1⟩

/-! ## Claim C5 — de-duplication of sources and external links -/

/-- Claim C5 as stated is false for `externalLinks`: the handler maps
the first five external records verbatim, so two records sharing a URL
produce a duplicated entry. -/
theorem C5_external_links_counterexample :
    chat "hello" none
        [({ mtype := "external", url := some "http://x" } : Rec),
         ({ mtype := "external", url := some "http://x" } : Rec)]
        (Except.ok (some "ans")) 7 = ChatResult.ok
      { answer := some "ans"
        confidence_score := 85 / 100
        sources := []
        external_links :=
          [{ title := none, url := some "http://x" },
           { title := none, url := some "http://x" }]
        forms_detected := []
        recommended_pages := []
        conversation_state :=
          { intent := "midc", should_follow_up := false
            follow_up_message := none, last_interaction_ts := some 7 } } ∧
    ¬ (([({ title := none, url := some "http://x" } : Link),
        ({ title := none, url := some "http://x" } : Link)].map Link.url).Nodup) := by
  constructor
  · simp +decide [chat, midc_response, round2_high]
  · decide

/-- Claim C5 amended: the `sources` list of every successful response
contains no duplicates (it is built as a Python set); `external_links`
carries the first five external records verbatim and may repeat a URL. -/
theorem C5_sources_nodup (q : String) (mode : Option String)
    (recs : List Rec) (mr : Except Unit (Option String)) (now : Nat)
    (r : ChatResponse) (h : chat q mode recs mr now = ChatResult.ok r) :
    r.sources.Nodup := by
  obtain ⟨hq, t, hmr, hcase⟩ := chat_ok_cases q mode recs mr now r h
  rcases hcase with ⟨hm, rfl⟩ | ⟨hm, rfl⟩
  · simp [internet_response]
  · rw [midc_response_sources]
    exact List.nodup_dedup _

/-- Witness for the amended C5 theorem at a concrete input. -/
theorem C5_sources_nodup_witness :
    (internet_response (some "w")).sources.Nodup := by
  have hc := chat_internet_eq "latest news" none [] (some "w") 0 (by decide) (by decide)
  exact C5_sources_nodup "latest news" none [] (Except.ok (some "w")) 0 _ hc

/-! ## Claim C6 — per-document chunk caps bound the context -/

/-- Chunks contributed through a truncated traversal are bounded by the
per-document cap times the document cap. -/
theorem take_flatMap_length_le (l : List Rec) (n k : Nat)
    (f : Rec → List String) (hf : ∀ p, (f p).length ≤ k) :
    ((l.take n).flatMap f).length ≤ n * k := by
  induction l generalizing n with
  | nil => simp
  | cons p ps ih =>
    cases n with
    | zero => simp
    | succ m =>
      rw [List.take_succ_cons, List.flatMap_cons, List.length_append]
      have h1 := hf p
      have h2 := ih m
      have h3 : (m + 1) * k = m * k + k := Nat.succ_mul m k
      omega

/-- Claim C6 confirmed: each page contributes at most three chunks, each
pdf at most two, and the assembled context holds at most
`6 * 3 + 4 * 2 = 26` chunks in total. -/
theorem C6_chunk_caps (pages pdfs : List Rec) :
    (∀ p ∈ pages, (p.chunks.take 3).length ≤ 3) ∧
    (∀ p ∈ pdfs, (p.chunks.take 2).length ≤ 2) ∧
    (contextChunks pages pdfs).length ≤ 26 := by
  refine ⟨fun p _ => ?_, fun p _ => ?_, ?_⟩
  · rw [List.length_take]
    exact min_le_left _ _
  · rw [List.length_take]
    exact min_le_left _ _
  · unfold contextChunks
    rw [List.length_append]
    have h1 := take_flatMap_length_le pages 6 3 (fun p => p.chunks.take 3)
      (fun p => by rw [List.length_take]; exact min_le_left _ _)
    have h2 := take_flatMap_length_le pdfs 4 2 (fun p => p.chunks.take 2)
      (fun p => by rw [List.length_take]; exact min_le_left _ _)
    omega

/-- Witness for the C6 theorem at a concrete input. -/
theorem C6_chunk_caps_witness :
    ((({ chunks := ["a", "b", "c", "d"] } : Rec).chunks.take 3).length ≤ 3) ∧
    (contextChunks [({ chunks := ["a", "b", "c", "d"] } : Rec)] []).length ≤ 26 :=
  ⟨(C6_chunk_caps [{ chunks := ["a", "b", "c", "d"] }] []).1 _ (by decide),
   (C6_chunk_caps [{ chunks := ["a", "b", "c", "d"] }] []).2.2⟩


/-! ## Claim C7 — language detection -/

/-- Claim C7 confirmed: `detect_language` is total, returns the local
tag exactly when some character lies in the Devanagari block
U+0900..U+097F, and returns the default tag otherwise. -/
theorem C7_detect_language_spec (t : String) :
    (detect_language t = "mr" ↔
      ∃ c ∈ t.toList, 0x0900 ≤ c.toNat ∧ c.toNat ≤ 0x097F) ∧
    (detect_language t = "mr" ∨ detect_language t = "en") := by
  unfold detect_language
  by_cases h :
      t.toList.any (fun ch => decide (0x0900 ≤ ch.toNat) && decide (ch.toNat ≤ 0x097F)) = true
  · rw [if_pos h]
    refine ⟨⟨fun _ => ?_, fun _ => rfl⟩, Or.inl rfl⟩
    rw [List.any_eq_true] at h
    obtain ⟨c, hc, hcc⟩ := h
    simp only [Bool.and_eq_true, decide_eq_true_eq] at hcc
    exact ⟨c, hc, hcc.1, hcc.2⟩
  · rw [if_neg h]
    refine ⟨⟨fun he => absurd he (by decide), fun hex => ?_⟩, Or.inr rfl⟩
    exfalso
    apply h
    rw [List.any_eq_true]
    obtain ⟨c, hc, h1, h2⟩ := hex
    exact ⟨c, hc, by simp [h1, h2]⟩

/-! ## Claim C8 — follow-up conditions -/

/-- Claim C8 as stated is false: a request whose recommended-pages list
is non-empty and whose internal confidence `0.85` exceeds the `0.3`
threshold still gets `should_follow_up = false` when no form matched
and the model answered. -/
theorem C8_follow_up_counterexample :
    chat "water" none
        [({ title := some "water permits", source_url := some "http://p" } : Rec)]
        (Except.ok (some "ans")) 3 = ChatResult.ok
      { answer := some "ans"
        confidence_score := 85 / 100
        sources := ["http://p"]
        external_links := []
        forms_detected := []
        recommended_pages := [{ title := "water permits", url := some "http://p" }]
        conversation_state :=
          { intent := "midc", should_follow_up := false
            follow_up_message := none, last_interaction_ts := some 3 } } ∧
    ((3 : ℚ) / 10 < 85 / 100) := by
  constructor
  · simp +decide [chat, midc_response, round2_high]
  · norm_num

/-- Claim C8 amended: in internal mode `should_follow_up` is true
exactly when a form matched or the model answer was missing/blank; a
non-empty recommended-pages list and an above-threshold confidence play
no role, and a follow-up message exists exactly when the flag is set. -/
theorem C8_follow_up_amended (q : String) (mode : Option String)
    (recs : List Rec) (t : Option String) (now : Nat) (r : ChatResponse)
    (h : chat q mode recs (Except.ok t) now = ChatResult.ok r)
    (hm : is_internet_query (pyStrip q) mode = false) :
    (r.conversation_state.should_follow_up = true ↔
      (detect_relevant_forms (pyStrip q) (partition_content recs).2.2.1 ≠ [] ∨
       pyTruthy (midc_answer t) = false)) ∧
    (r.conversation_state.follow_up_message ≠ none ↔
      r.conversation_state.should_follow_up = true) := by
  obtain ⟨hq, t', hmr, hcase⟩ := chat_ok_cases q mode recs (Except.ok t) now r h
  have ht : t' = t := (Except.ok.inj hmr).symm
  subst ht
  rcases hcase with ⟨hmi, -⟩ | ⟨-, rfl⟩
  · exact absurd hmi (by simp [hm])
  · by_cases hf : detect_relevant_forms (pyStrip q) (partition_content recs).2.2.1 = []
    · by_cases ha : pyTruthy (midc_answer t') = true <;>
        simp [midc_response, hf, ha]
    · simp [midc_response, hf]

/-- Witness for the amended C8 theorem at a concrete input. -/
theorem C8_follow_up_amended_witness :
    ((midc_response (pyStrip "hello") [] (some "a") 0).conversation_state.should_follow_up = true ↔
      (detect_relevant_forms (pyStrip "hello") (partition_content []).2.2.1 ≠ [] ∨
       pyTruthy (midc_answer (some "a")) = false)) ∧
    ((midc_response (pyStrip "hello") [] (some "a") 0).conversation_state.follow_up_message ≠ none ↔
      (midc_response (pyStrip "hello") [] (some "a") 0).conversation_state.should_follow_up = true) := by
  have hc := chat_midc_eq "hello" none [] (some "a") 0 (by decide) (by decide)
  exact C8_follow_up_amended "hello" none [] (some "a") 0 _ hc (by decide)

/-! ## Claim C9 — shape of the internet-mode response -/

/-- Claim C9 confirmed: every request answered in internet mode returns
confidence `0.65`, sources `["Google Search"]`, empty links, forms and
pages, intent `"internet"` and `should_follow_up = false`, for any
query text and repository. -/
theorem C9_internet_mode_response (q : String) (mode : Option String)
    (recs : List Rec) (t : Option String) (now : Nat) (hq : pyStrip q ≠ "")
    (hm : is_internet_query (pyStrip q) mode = true) :
    chat q mode recs (Except.ok t) now = ChatResult.ok
      { answer := internet_answer t
        confidence_score := 65 / 100
        sources := ["Google Search"]
        external_links := []
        forms_detected := []
        recommended_pages := []
        conversation_state :=
          { intent := "internet", should_follow_up := false
            follow_up_message := none, last_interaction_ts := none } } :=
  chat_internet_eq q mode recs t now hq hm

/-- Witness for the C9 theorem at a concrete input. -/
theorem C9_internet_mode_response_witness :
    chat "latest news" none [] (Except.ok (some "w")) 0 = ChatResult.ok
      { answer := internet_answer (some "w")
        confidence_score := 65 / 100
        sources := ["Google Search"]
        external_links := []
        forms_detected := []
        recommended_pages := []
        conversation_state :=
          { intent := "internet", should_follow_up := false
            follow_up_message := none, last_interaction_ts := none } } :=
  C9_internet_mode_response "latest news" none [] (some "w") 0 (by decide) (by decide)

/-! ## Claim C10 — soundness of form detection -/

/-- Claim C10 confirmed: every detected form is one of the repository's
form records, has a non-empty keyword list, and one of its keywords
occurs case-insensitively inside the question. -/
theorem C10_forms_detected_sound (q : String) (forms : List Rec) (f : Rec)
    (hf : f ∈ detect_relevant_forms q forms) :
    f ∈ forms ∧ f.keywords ≠ [] ∧
    ∃ k ∈ f.keywords, pyIn (pyLower k) (pyLower q) = true := by
  unfold detect_relevant_forms at hf
  rw [List.mem_filter] at hf
  obtain ⟨hmem, hp⟩ := hf
  rw [List.any_eq_true] at hp
  obtain ⟨k, hk, hkk⟩ := hp
  refine ⟨hmem, ?_, ⟨k, hk, hkk⟩⟩
  intro h0
  rw [h0] at hk
  exact absurd hk (List.not_mem_nil k)

/-- Witness for the C10 theorem at a concrete input. -/
theorem C10_forms_detected_sound_witness :
    ({ mtype := "form", keywords := ["water"] } : Rec) ∈
      [({ mtype := "form", keywords := ["water"] } : Rec)] ∧
    ({ mtype := "form", keywords := ["water"] } : Rec).keywords ≠ [] ∧
    ∃ k ∈ ({ mtype := "form", keywords := ["water"] } : Rec).keywords,
      pyIn (pyLower k) (pyLower "Water supply") = true :=
  C10_forms_detected_sound "Water supply"
    [{ mtype := "form", keywords := ["water"] }] _ (by decide)

end MIDC
